import Mathlib

/-!
# The websocket subscription client (`client/websocket.go`, `client/client.go`)

A shallow embedding of the test client's subscription transport:
`newRequest`, `unpack`, `errorSubscription`, `Websocket`, `WebsocketOnce`,
`WebsocketWithPayload` and the two closures (`Close`, `Next`) of the
`Subscription` it returns.

Everything the Go code reaches through a library is a field of `Env`:
`encoding/json` (marshal, unmarshal), `mapstructure` (decoder), and the
gorilla websocket connection (dial, `WriteJSON`, `ReadJSON`, `Close`).  The
connection is scripted by call index: the outcome of the k-th read, write and
close is whatever the environment says, so every trace the client can observe
is the trace of some `Env`.  The effects of the client on the outside are
recorded in a `World`.

Text is modelled by `String`; a `json.RawMessage` is `Option String`
(`none` for the nil slice).
-/

namespace client

/-! ## Data model -/

def connectionInitMsg : String := "connection_init"
def startMsg : String := "start"
def connectionAckMsg : String := "connection_ack"
def connectionKaMsg : String := "ka"
def dataMsg : String := "data"
def errorMsg : String := "error"

/-- A `json.RawMessage`: `none` is the nil slice, `some s` the raw bytes `s`. -/
abbrev RawMessage := Option String

/-- Go's `string(raw)` conversion of a raw message (the nil slice gives the empty string). -/
def RawMessage.toText (raw : RawMessage) : String := raw.getD ""

/-- The wire frame `operationMessage` (the field `Type` is spelled `Typ`). -/
structure operationMessage where
  Payload : RawMessage
  ID : String
  Typ : String
deriving DecidableEq, Repr

/-- Go error values, as far as the client can produce or pass them on. -/
inductive GoError where
  /-- An error made by `fmt.Errorf` whose message text is fully known. -/
  | errorString (text : String)
  /-- The error `fmt.Errorf(format, op)` with a `%#v` operand, kept unrendered:
  the format string and the frame handed to it. -/
  | errorfFrame (format : String) (op : operationMessage)
  /-- The value `RawJsonError{raw}`. -/
  | RawJsonError (raw : String)
  /-- An error returned by a library and passed on unchanged (its message). -/
  | foreign (text : String)
deriving DecidableEq, Repr

/-- The `http.Request` built by `newRequest`, as far as the client uses it. -/
structure HTTPRequest where
  Method : String
  Path : String
  Header : List (String × String)
  Body : Option String
deriving DecidableEq, Repr

/-- The outgoing GraphQL request `Request`; `V` stands for Go's `interface{}` values. -/
structure Request (V : Type) where
  Query : String
  Variables : List (String × V)
  OperationName : String
  HTTP : HTTPRequest

/-- Go's `Option`: a visitor that mutates the outgoing request. -/
abbrev RequestOption (V : Type) := Request V → Request V

/-- The GraphQL layer response `Response`. -/
structure Response (V : Type) where
  Data : V
  Errors : RawMessage
  Extensions : List (String × V)

/-- The test client; its handler `h` is what the environment's connection script answers for. -/
structure Client (V : Type) where
  opts : List (RequestOption V)

/-- The libraries the client calls. `V` are Go `interface{}` values, `D` the
contents of a decode destination. -/
structure Env (V D : Type) where
  /-- The call `json.Marshal(bd)` on the request. -/
  marshalRequest : Request V → Except String String
  /-- The call `json.Marshal(initPayload)`. -/
  marshalInit : List (String × V) → Except String String
  /-- The call `websocket.DefaultDialer.Dial(host+path, header)`: its error, if any. -/
  dial : String → List (String × String) → Option String
  /-- The k-th call of `c.WriteJSON` (k earlier writes), with the frame: its error, if any. -/
  writeJSON : Nat → operationMessage → Option String
  /-- The k-th call of `c.ReadJSON` (k earlier reads): the frame or the error. -/
  readJSON : Nat → Except String operationMessage
  /-- The k-th call of `c.Close` (k earlier calls): its error, if any. -/
  connClose : Nat → Option String
  /-- The call `json.Unmarshal(payload, &respDataRaw)`. -/
  unmarshalResponse : String → Except String (Response V)
  /-- The call `mapstructure.NewDecoder` with the destination as `Result`: its error, if any. -/
  newDecoder : D → Option String
  /-- The call `d.Decode(data)`: the destination afterwards and the error, if any. -/
  decode : V → D → D × Option String

/-- What the client has done to the outside so far. -/
structure World where
  /-- The call `httptest.NewServer` has created the listener. -/
  srvStarted : Bool
  /-- Number of calls of `srv.Close()`. -/
  srvCloseCalls : Nat
  /-- The dial has returned a connection. -/
  connDialed : Bool
  /-- Number of calls of `c.Close()`. -/
  connCloseCalls : Nat
  /-- The frames handed to `c.WriteJSON`, in order. -/
  written : List operationMessage
  /-- Number of calls of `c.ReadJSON`. -/
  readCalls : Nat
deriving DecidableEq, Repr

/-- Nothing has happened yet. -/
def World.fresh : World :=
  { srvStarted := false, srvCloseCalls := 0, connDialed := false, connCloseCalls := 0,
    written := [], readCalls := 0 }

/-- The listener exists and no `srv.Close()` has been called. -/
def World.listenerOpen (w : World) : Bool := w.srvStarted && w.srvCloseCalls == 0

/-- The connection exists and no `c.Close()` has been called. -/
def World.connOpen (w : World) : Bool := w.connDialed && w.connCloseCalls == 0

/-! ## `fmt.Errorf` with a format string and no operands

`Next` calls `fmt.Errorf(string(op.Payload))`: the payload is the format string.
The functions below follow `doPrintf` of Go's `fmt` for an empty operand list. -/

namespace fmt

def percentBangString : List Char := "%!".data
def missingString : List Char := "(MISSING)".data
def badIndexString : List Char := "(BADINDEX)".data
def noVerbString : List Char := "%!(NOVERB)".data
def badWidthString : List Char := "%!(BADWIDTH)".data
def badPrecString : List Char := "%!(BADPREC)".data

/-- The loop of `parsenum`: reads decimal digits; a number above 1e6 gives up
and consumes the rest of the input. Returns the number, whether a digit was
read, and the unread input. -/
def parsenum : List Char → Nat → Bool → Nat × Bool × List Char
  | [], num, isnum => (num, isnum, [])
  | c :: cs, num, isnum =>
    if '0' ≤ c ∧ c ≤ '9' then
      if num > 1000000 then (0, false, [])
      else parsenum cs (num * 10 + (c.toNat - '0'.toNat)) true
    else (num, isnum, c :: cs)

/-- The function `parseArgNumber` on input that starts with `[`: the width
consumed and whether an index `[n]` was parsed. -/
def parseArgNumber (s : List Char) : Nat × Bool :=
  if s.length < 3 then (1, false)
  else
    let body := s.drop 1
    let digits := body.takeWhile (fun c => c ≠ ']')
    if digits.length = body.length then (1, false)
    else
      match parsenum digits 0 false with
      | (_, ok, rest) =>
        if !ok || !rest.isEmpty then (digits.length + 2, false)
        else (digits.length + 2, true)

/-- The method `argNumber` with no operands: the unread input, whether an index
was found, and the `goodArgNum` flag (an index never fits an empty operand list). -/
def argNumber (s : List Char) (good : Bool) : List Char × Bool × Bool :=
  match s with
  | '[' :: _ =>
    match parseArgNumber s with
    | (wid, ok) => (s.drop wid, ok, false)
  | _ => (s, false, good)

def isFlag (c : Char) : Bool := c = '#' || c = '0' || c = '+' || c = '-' || c = ' '

/-- One verb of `doPrintf`, from right after the `%`: the text written and the unread input. -/
def verb (s0 : List Char) : List Char × List Char :=
  let s1 := s0.dropWhile isFlag
  match argNumber s1 true with
  | (s2, afterIndex2, good2) =>
    -- width
    let wd : List Char × List Char × Bool × Bool :=
      match s2 with
      | '*' :: t => (badWidthString, t, false, good2)
      | _ =>
        match parsenum s2 0 false with
        | (_, present, rest) => ([], rest, afterIndex2, good2 && !(afterIndex2 && present))
    match wd with
    | (out3, s3, afterIndex3, good3) =>
      -- precision
      let pr : List Char × List Char × Bool × Bool :=
        match s3 with
        | '.' :: t =>
          match argNumber t (good3 && !afterIndex3) with
          | (t1, afterIndex, good) =>
            match t1 with
            | '*' :: u => (badPrecString, u, false, good)
            | _ =>
              match parsenum t1 0 false with
              | (_, _, rest) => ([], rest, afterIndex, good)
        | _ => ([], s3, afterIndex3, good3)
      match pr with
      | (out4, s4, afterIndex4, good4) =>
        let fin : List Char × Bool :=
          if !afterIndex4 then
            match argNumber s4 good4 with
            | (s, _, good) => (s, good)
          else (s4, good4)
        match fin with
        | ([], _) => (out3 ++ out4 ++ noVerbString, [])
        | (v :: rest, good5) =>
          if v = '%' then (out3 ++ out4 ++ ['%'], rest)
          else if !good5 then (out3 ++ out4 ++ percentBangString ++ [v] ++ badIndexString, rest)
          else (out3 ++ out4 ++ percentBangString ++ [v] ++ missingString, rest)

/-- The format loop of `doPrintf` with no operands; every round consumes input,
so `fuel` equal to the length of the format is enough. -/
def doPrintf : Nat → List Char → List Char
  | 0, _ => []
  | _ + 1, [] => []
  | fuel + 1, c :: s =>
    if c ≠ '%' then c :: doPrintf fuel s
    else
      match verb s with
      | (out, rest) => out ++ doPrintf fuel rest

/-- The text of `fmt.Sprintf(format)` with no operands. -/
def Sprintf (format : String) : String :=
  String.mk (doPrintf format.data.length format.data)

end fmt

/-- The error `fmt.Errorf(format)` with no operands. -/
def Errorf (format : String) : GoError := .errorString (fmt.Sprintf format)

/-! ## `client.go`: building the request, unpacking the data -/

/-- The method `Header.Get`: the value stored under the key, or the empty string. -/
def Header.Get (h : List (String × String)) (key : String) : String :=
  (h.lookup key).getD ""

/-- The method `Header.Set`: replaces what is stored under the key. -/
def Header.Set (h : List (String × String)) (key value : String) : List (String × String) :=
  (key, value) :: h.filter (fun kv => kv.1 != key)

/-- How `newRequest` ends: with the request, with an error, or in a panic. -/
inductive RequestResult where
  | ok (r : HTTPRequest)
  | err (text : String)
  | panicked (text : String)
deriving DecidableEq, Repr

/-- The request `bd` that `newRequest` starts from. -/
def baseRequest {V : Type} (query : String) : Request V :=
  { Query := query, Variables := [], OperationName := "",
    HTTP := { Method := "POST", Path := "/",
              Header := Header.Set [] "Content-Type" "application/json", Body := none } }

/-- The two loops of `newRequest`: the options of the client first, then those of the call. -/
def applyOptions {V : Type} (p : Client V) (options : List (RequestOption V))
    (bd : Request V) : Request V :=
  options.foldl (fun b option => option b) (p.opts.foldl (fun b option => option b) bd)

/-- The method `Client.newRequest`. -/
def newRequest {V D : Type} (env : Env V D) (p : Client V) (query : String)
    (options : List (RequestOption V)) : RequestResult :=
  let bd := applyOptions p options (baseRequest query)
  if Header.Get bd.HTTP.Header "Content-Type" = "application/json" then
    match env.marshalRequest bd with
    | .error e => .err ("encode: " ++ e)
    | .ok requestBody => .ok { bd.HTTP with Body := some requestBody }
  else .panicked ("unsupported encoding" ++ Header.Get bd.HTTP.Header "Content-Type")

/-- The function `unpack`: the destination afterwards and the error, if any. -/
def unpack {V D : Type} (env : Env V D) (data : V) (into : D) : D × Option GoError :=
  match env.newDecoder into with
  | some e => (into, some (.errorString ("mapstructure: " ++ e)))
  | none =>
    match env.decode data into with
    | (into1, err) => (into1, err.map GoError.foreign)

/-! ## `websocket.go`: the subscription -/

/-- The two pairs of closures a `Subscription` is built from: the pair of
`errorSubscription(err)` and the pair that captures `srv` and `c`. -/
inductive Subscription where
  | failed (err : GoError)
  | streaming
deriving DecidableEq, Repr

/-- The function `errorSubscription`. -/
def errorSubscription (err : GoError) : Subscription := .failed err

/-- The world after a call `c.WriteJSON(m)`; the call is the write number
`w.written.length` of the environment. -/
def World.afterWrite (w : World) (m : operationMessage) : World :=
  { w with written := w.written ++ [m] }

/-- The world after a call `c.ReadJSON(&op)`; the call is the read number
`w.readCalls` of the environment. -/
def World.afterRead (w : World) : World :=
  { w with readCalls := w.readCalls + 1 }

/-- The closure `Close` of a subscription: the world afterwards and the error returned. -/
def Subscription.Close {V D : Type} (env : Env V D) (s : Subscription) (w : World) :
    World × Option GoError :=
  match s with
  | .failed _ => (w, none)
  | .streaming =>
    let w1 := { w with srvCloseCalls := w.srvCloseCalls + 1 }
    ({ w1 with connCloseCalls := w1.connCloseCalls + 1 },
      (env.connClose w1.connCloseCalls).map GoError.foreign)

/-- The closure `Next` of a subscription: the world afterwards, the destination
afterwards and the error returned. -/
def Subscription.Next {V D : Type} (env : Env V D) (s : Subscription) (response : D)
    (w : World) : World × D × Option GoError :=
  match s with
  | .failed err => (w, response, some err)
  | .streaming =>
    match env.readJSON w.readCalls with
    | .error e => (w.afterRead, response, some (.foreign e))
    | .ok op =>
      if op.Typ ≠ dataMsg then
        if op.Typ = errorMsg then (w.afterRead, response, some (Errorf op.Payload.toText))
        else (w.afterRead, response, some (.errorfFrame "expected data message, got %#v" op))
      else
        match env.unmarshalResponse op.Payload.toText with
        | .error e => (w.afterRead, response, some (.errorString ("decode: " ++ e)))
        | .ok respDataRaw =>
          -- we want to unpack even if there is an error, so we can see partial responses
          let unpacked := unpack env respDataRaw.Data response
          match respDataRaw.Errors with
          | some raw => (w.afterRead, unpacked.1, some (.RawJsonError raw))
          | none => (w.afterRead, unpacked.1, unpacked.2)

/-- How a call that builds a subscription ends: in the panic of `newRequest`, or
with a subscription and the world it leaves. -/
inductive Outcome where
  | panicked (text : String)
  | returned (w : World) (s : Subscription)
deriving DecidableEq, Repr

/-- The frame `initMessage`: the payload is set only when an init payload is given. -/
def initMessage {V D : Type} (env : Env V D) (initPayload : Option (List (String × V))) :
    Except String operationMessage :=
  match initPayload with
  | none => .ok { Payload := none, ID := "", Typ := connectionInitMsg }
  | some m =>
    match env.marshalInit m with
    | .error e => .error e
    | .ok b => .ok { Payload := some b, ID := "", Typ := connectionInitMsg }

/-- The frame `operationMessage{Type: startMsg, ID: "1", Payload: requestBody}`. -/
def startFrame (requestBody : Option String) : operationMessage :=
  { Payload := requestBody, ID := "1", Typ := startMsg }

/-- The method `Client.WebsocketWithPayload`. The body of the request is a
`bytes.Buffer`, which `ioutil.ReadAll` reads without error, so the branch
`parse body` has no counterpart. -/
def WebsocketWithPayload {V D : Type} (env : Env V D) (p : Client V) (query : String)
    (initPayload : Option (List (String × V))) (options : List (RequestOption V)) : Outcome :=
  match newRequest env p query options with
  | .panicked t => .panicked t
  | .err e => .returned World.fresh (errorSubscription (.errorString ("request: " ++ e)))
  | .ok r =>
    let requestBody := r.Body
    let w1 := { World.fresh with srvStarted := true }
    match env.dial r.Path r.Header with
    | some e => .returned w1 (errorSubscription (.errorString ("dial: " ++ e)))
    | none =>
      let w2 := { w1 with connDialed := true }
      match initMessage env initPayload with
      | .error e => .returned w2 (errorSubscription (.errorString ("parse payload: " ++ e)))
      | .ok initMsg =>
        let w3 := w2.afterWrite initMsg
        match env.writeJSON w2.written.length initMsg with
        | some e => .returned w3 (errorSubscription (.errorString ("init: " ++ e)))
        | none =>
          let w4 := w3.afterRead
          match env.readJSON w3.readCalls with
          | .error e => .returned w4 (errorSubscription (.errorString ("ack: " ++ e)))
          | .ok ack =>
            if ack.Typ ≠ connectionAckMsg then
              .returned w4 (errorSubscription (.errorfFrame "expected ack message, got %#v" ack))
            else
              let w5 := w4.afterRead
              match env.readJSON w4.readCalls with
              | .error e => .returned w5 (errorSubscription (.errorString ("ack: " ++ e)))
              | .ok ka =>
                if ka.Typ ≠ connectionKaMsg then
                  .returned w5
                    (errorSubscription (.errorfFrame "expected ack message, got %#v" ack))
                else
                  let start := startFrame requestBody
                  let w6 := w5.afterWrite start
                  match env.writeJSON w5.written.length start with
                  | some e => .returned w6 (errorSubscription (.errorString ("start: " ++ e)))
                  | none => .returned w6 .streaming

/-- The method `Client.Websocket`. -/
def Websocket {V D : Type} (env : Env V D) (p : Client V) (query : String)
    (options : List (RequestOption V)) : Outcome :=
  WebsocketWithPayload env p query none options

/-- How `WebsocketOnce` ends: in a panic, or with the world, the destination and the error. -/
inductive OnceOutcome (D : Type) where
  | panicked (text : String)
  | returned (w : World) (resp : D) (err : Option GoError)

/-- The method `Client.WebsocketOnce`: one `Next`, then the deferred `Close`. -/
def WebsocketOnce {V D : Type} (env : Env V D) (p : Client V) (query : String) (resp : D)
    (_options : List (RequestOption V)) : OnceOutcome D :=
  match Websocket env p query [] with
  | .panicked t => .panicked t
  | .returned w sock =>
    match sock.Next env resp w with
    | (w1, resp1, err) => .returned (sock.Close env w1).1 resp1 err

/-- The world a call leaves: the panic of `newRequest` comes before any effect. -/
def Outcome.world : Outcome → World
  | .panicked _ => World.fresh
  | .returned w _ => w

/-- The subscription a call returns, if it returns. -/
def Outcome.subscription : Outcome → Option Subscription
  | .panicked _ => none
  | .returned _ s => some s

/-- The world `WebsocketOnce` leaves. -/
def OnceOutcome.world {D : Type} : OnceOutcome D → World
  | .panicked _ => World.fresh
  | .returned w _ _ => w

/-- The closure `Close` called `n` times in a row: the world afterwards and the
error of the last call (`none` when `n = 0`). -/
def Subscription.CloseTimes {V D : Type} (env : Env V D) (s : Subscription) :
    Nat → World → World × Option GoError
  | 0, w => (w, none)
  | n + 1, w => s.Close env (Subscription.CloseTimes env s n w).1

/-- The handshake as the server's script decides it: the init send succeeds, the
first frame read is a `connection_ack` and the second a `ka`. -/
def handshakeCompletes {V D : Type} (env : Env V D) (initMsg : operationMessage) : Prop :=
  env.writeJSON 0 initMsg = none ∧
  (∃ ack, env.readJSON 0 = .ok ack ∧ ack.Typ = connectionAckMsg) ∧
  (∃ ka, env.readJSON 1 = .ok ka ∧ ka.Typ = connectionKaMsg)

/-! ## A sample environment

Decoded JSON objects are lists of fields with their values as text. -/

abbrev Obj := List (String × String)

/-- The payload `{"data":{"x":1}}`. -/
def payloadData : String := "\x7b\"data\":\x7b\"x\":1\x7d\x7d"

/-- The payload `{"data":{"x":1},"errors":[{"message":"boom"}]}`. -/
def payloadDataErrors : String :=
  "\x7b\"data\":\x7b\"x\":1\x7d,\"errors\":[\x7b\"message\":\"boom\"\x7d]\x7d"

/-- The payload `{"data":{"y":2},"errors":[{"message":"boom"}]}`. -/
def payloadOtherErrors : String :=
  "\x7b\"data\":\x7b\"y\":2\x7d,\"errors\":[\x7b\"message\":\"boom\"\x7d]\x7d"

/-- The raw errors value `[{"message":"boom"}]`. -/
def rawBoom : String := "[\x7b\"message\":\"boom\"\x7d]"

/-- A strict decoder on objects: every field of the destination takes the value
of the source (or the zero value), and a source key that the destination lacks
is an error. -/
def strictDecode (data into : Obj) : Obj × Option String :=
  (into.map (fun kv => (kv.1, (data.lookup kv.1).getD "")),
    if data.all (fun kv => into.any (fun f => f.1 == kv.1)) then none
    else some "has invalid keys")

/-- A server that answers with the given frames, then fails every read; all
writes succeed; the second `c.Close()` fails. -/
def sampleEnv (reads : List (Except String operationMessage)) : Env Obj Obj where
  marshalRequest r := .ok (r.Query ++ "|" ++ String.intercalate "," (r.Variables.map Prod.fst))
  marshalInit m := .ok (String.intercalate "," (m.map Prod.fst))
  dial _ _ := none
  writeJSON _ _ := none
  readJSON k := reads.getD k (.error "EOF")
  connClose k := if k = 0 then none else some "use of closed network connection"
  unmarshalResponse s :=
    if s = payloadData then .ok { Data := [("x", "1")], Errors := none, Extensions := [] }
    else if s = payloadDataErrors then
      .ok { Data := [("x", "1")], Errors := some rawBoom, Extensions := [] }
    else if s = payloadOtherErrors then
      .ok { Data := [("y", "2")], Errors := some rawBoom, Extensions := [] }
    else .error "unexpected end of JSON input"
  newDecoder _ := none
  decode := strictDecode

/-- A frame sent by the server. -/
def frame (typ : String) (payload : RawMessage) : Except String operationMessage :=
  .ok { Payload := payload, ID := "1", Typ := typ }

def ackFrame : Except String operationMessage :=
  .ok { Payload := none, ID := "", Typ := connectionAckMsg }

def kaFrame : Except String operationMessage :=
  .ok { Payload := none, ID := "", Typ := connectionKaMsg }

/-- An init payload that cannot be encoded, on the sample server otherwise. -/
def unencodableInitEnv : Env Obj Obj :=
  { sampleEnv [ackFrame, kaFrame] with
    marshalInit := fun _ => .error "json: unsupported value: NaN" }

/-- The server that completes the handshake and then sends one `data` frame
with the payload `{"data":{"x":1}}`. -/
def oneDataEnv : Env Obj Obj :=
  sampleEnv [ackFrame, kaFrame, frame dataMsg (some payloadData)]

/-- A client without options of its own. -/
def plainClient : Client Obj := { opts := [] }

/-- An option that adds one variable to the request. -/
def addVariable (name : String) (value : Obj) : RequestOption Obj :=
  fun bd => { bd with Variables := bd.Variables ++ [(name, value)] }

/-- The world of a streaming subscription that has read nothing after the handshake. -/
def streamingWorld : World :=
  { srvStarted := true, srvCloseCalls := 0, connDialed := true, connCloseCalls := 0,
    written := [], readCalls := 0 }

/-! ## `Next` on a streaming subscription -/

/-- A format without `%` is printed as it stands. -/
theorem fmt.doPrintf_of_no_percent (s : List Char) (h : '%' ∉ s) (fuel : Nat)
    (hf : s.length ≤ fuel) : fmt.doPrintf fuel s = s := by
  induction s generalizing fuel with
  | nil => cases fuel <;> rfl
  | cons c cs ih =>
    cases fuel with
    | zero => simp at hf
    | succ n =>
      have hc : c ≠ '%' := fun hEq => h (by simp [hEq])
      have hcs : '%' ∉ cs := fun hIn => h (List.mem_cons_of_mem _ hIn)
      have hn : cs.length ≤ n := by simpa using hf
      simp [fmt.doPrintf, hc, ih hcs n hn]

/-- An `error` frame whose payload holds no `%` is surfaced verbatim, and the
destination is left as it was. -/
theorem next_error_frame_verbatim_of_no_percent {V D : Type} (env : Env V D) (w : World)
    (response : D) (op : operationMessage) (hread : env.readJSON w.readCalls = .ok op)
    (htyp : op.Typ = errorMsg) (hpct : '%' ∉ op.Payload.toText.data) :
    Subscription.Next env .streaming response w =
      (w.afterRead, response,
        some (.errorString op.Payload.toText)) := by
  have hne : errorMsg ≠ dataMsg := by decide
  have hp : fmt.doPrintf op.Payload.toText.length op.Payload.toText.data
      = op.Payload.toText.data :=
    fmt.doPrintf_of_no_percent _ hpct _ (le_refl _)
  simp [Subscription.Next, World.afterRead, hread, hne, htyp, Errorf, fmt.Sprintf, hp]

/-- C1 (as the code has it): for a `data` frame, a payload that does not parse
gives the error `decode: ...`; otherwise errors present in the payload give the
`RawJsonError` of those errors, whether or not unpacking failed; otherwise
`Next` returns the result of unpacking (its error, or no error). -/
theorem next_data_error_precedence {V D : Type} (env : Env V D) (w : World) (response : D)
    (op : operationMessage) (hread : env.readJSON w.readCalls = .ok op)
    (htyp : op.Typ = dataMsg) :
    (∀ e, env.unmarshalResponse op.Payload.toText = .error e →
      (Subscription.Next env .streaming response w).2.2
        = some (.errorString ("decode: " ++ e))) ∧
    (∀ resp raw, env.unmarshalResponse op.Payload.toText = .ok resp →
      resp.Errors = some raw →
      (Subscription.Next env .streaming response w).2.2 = some (.RawJsonError raw)) ∧
    (∀ resp, env.unmarshalResponse op.Payload.toText = .ok resp → resp.Errors = none →
      (Subscription.Next env .streaming response w).2.2
        = (unpack env resp.Data response).2) := by
  refine ⟨?_, ?_, ?_⟩
  · intro e he
    simp [Subscription.Next, World.afterRead, hread, htyp, he]
  · intro resp raw hresp hraw
    simp [Subscription.Next, World.afterRead, hread, htyp, hresp, hraw]
  · intro resp hresp hnone
    simp [Subscription.Next, World.afterRead, hread, htyp, hresp, hnone]

/-- The precedence at a frame whose data has a key the destination lacks and whose
errors are present. -/
theorem next_data_error_precedence_witness :
    (sampleEnv [frame dataMsg (some payloadOtherErrors)]).readJSON streamingWorld.readCalls
      = .ok { Payload := some payloadOtherErrors, ID := "1", Typ := dataMsg } ∧
    (∀ resp raw,
      (sampleEnv [frame dataMsg (some payloadOtherErrors)]).unmarshalResponse
        payloadOtherErrors = .ok resp →
      resp.Errors = some raw →
      (Subscription.Next (sampleEnv [frame dataMsg (some payloadOtherErrors)]) .streaming
        [("x", "0")] streamingWorld).2.2 = some (.RawJsonError raw)) :=
  ⟨rfl, (next_data_error_precedence (sampleEnv [frame dataMsg (some payloadOtherErrors)])
    streamingWorld [("x", "0")]
    { Payload := some payloadOtherErrors, ID := "1", Typ := dataMsg } rfl rfl).2.1⟩

/-- C1 fails as stated: the frame is a `data` frame, unpacking its data into the
destination fails, and `Next` returns the `RawJsonError` of the errors, not the
error of the failed decode. -/
theorem next_data_decode_error_not_returned :
    (unpack (sampleEnv [frame dataMsg (some payloadOtherErrors)]) [("y", "2")]
      [("x", "0")]).2 = some (.foreign "has invalid keys") ∧
    (Subscription.Next (sampleEnv [frame dataMsg (some payloadOtherErrors)]) .streaming
      [("x", "0")] streamingWorld).2.2 = some (.RawJsonError rawBoom) ∧
    (Subscription.Next (sampleEnv [frame dataMsg (some payloadOtherErrors)]) .streaming
      [("x", "0")] streamingWorld).2.2 ≠
    (unpack (sampleEnv [frame dataMsg (some payloadOtherErrors)]) [("y", "2")]
      [("x", "0")]).2 := by
  decide

/-- C2: when the payload of a `data` frame holds data that unpacks into the
destination and errors, `Next` leaves the destination populated with the
unpacked data and returns the `RawJsonError` of exactly the raw errors. -/
theorem next_data_with_errors_populates_and_reports {V D : Type} (env : Env V D) (w : World)
    (response response1 : D) (op : operationMessage) (resp : Response V) (raw : String)
    (hread : env.readJSON w.readCalls = .ok op) (htyp : op.Typ = dataMsg)
    (hresp : env.unmarshalResponse op.Payload.toText = .ok resp)
    (hraw : resp.Errors = some raw)
    (hunpack : unpack env resp.Data response = (response1, none)) :
    Subscription.Next env .streaming response w =
      (w.afterRead, response1, some (.RawJsonError raw)) := by
  simp [Subscription.Next, World.afterRead, hread, htyp, hresp, hraw, hunpack]

/-- The payload `{"data":{"x":1},"errors":[{"message":"boom"}]}` gives the
destination `{x:1}` and the raw errors `[{"message":"boom"}]`. -/
theorem next_data_with_errors_populates_and_reports_witness :
    Subscription.Next (sampleEnv [frame dataMsg (some payloadDataErrors)]) .streaming
      [("x", "0")] streamingWorld =
      ({ streamingWorld with readCalls := 1 }, [("x", "1")], some (.RawJsonError rawBoom)) :=
  next_data_with_errors_populates_and_reports
    (sampleEnv [frame dataMsg (some payloadDataErrors)]) streamingWorld [("x", "0")]
    [("x", "1")] { Payload := some payloadDataErrors, ID := "1", Typ := dataMsg }
    { Data := [("x", "1")], Errors := some rawBoom, Extensions := [] } rawBoom
    rfl rfl rfl rfl rfl

/-- C3 at the `error` frame with payload `"100%"`: the payload is used as a format
string, so the message is `"100%!"(MISSING)` and not the payload; the destination
is unchanged. -/
theorem next_error_frame_percent_reinterpreted :
    Subscription.Next (sampleEnv [frame errorMsg (some "\"100%\"")]) .streaming
      [("x", "0")] streamingWorld =
      ({ streamingWorld with readCalls := 1 }, [("x", "0")],
        some (.errorString "\"100%!\"(MISSING)")) ∧
    "\"100%!\"(MISSING)" ≠ "\"100%\"" := by
  decide

/-- C8: a frame whose type is neither `data` nor `error` makes `Next` return the
error `expected data message, got %#v` of that very frame (so of its type), and
the destination is left as it was. -/
theorem next_other_frame_protocol_violation {V D : Type} (env : Env V D) (w : World)
    (response : D) (op : operationMessage) (hread : env.readJSON w.readCalls = .ok op)
    (hdata : op.Typ ≠ dataMsg) (herror : op.Typ ≠ errorMsg) :
    Subscription.Next env .streaming response w =
      (w.afterRead, response,
        some (.errorfFrame "expected data message, got %#v" op)) := by
  simp [Subscription.Next, World.afterRead, hread, hdata, herror]

/-- A frame of type `unknown_type` is reported with that type. -/
theorem next_other_frame_protocol_violation_witness :
    Subscription.Next (sampleEnv [frame "unknown_type" none]) .streaming
      [("x", "0")] streamingWorld =
      ({ streamingWorld with readCalls := 1 }, [("x", "0")],
        some (.errorfFrame "expected data message, got %#v"
          { Payload := none, ID := "1", Typ := "unknown_type" })) :=
  next_other_frame_protocol_violation (sampleEnv [frame "unknown_type" none]) streamingWorld
    [("x", "0")] { Payload := none, ID := "1", Typ := "unknown_type" } rfl
    (by decide) (by decide)

/-! ## Establishing the subscription -/

/-- No path of `WebsocketWithPayload` calls `srv.Close()` or `c.Close()`. -/
theorem websocket_never_closes {V D : Type} (env : Env V D) (p : Client V) (query : String)
    (initPayload : Option (List (String × V))) (options : List (RequestOption V)) :
    (WebsocketWithPayload env p query initPayload options).world.srvCloseCalls = 0 ∧
    (WebsocketWithPayload env p query initPayload options).world.connCloseCalls = 0 := by
  unfold WebsocketWithPayload
  dsimp only
  repeat' split
  all_goals simp [Outcome.world, World.fresh, World.afterWrite, World.afterRead]

/-- `Next` never writes to the connection. -/
theorem next_never_writes {V D : Type} (env : Env V D) (s : Subscription) (response : D)
    (w : World) : (s.Next env response w).1.written = w.written := by
  unfold Subscription.Next
  dsimp only
  repeat' split
  all_goals simp [World.afterRead]

/-- The init frame has type `connection_init`. -/
theorem initMessage_typ {V D : Type} (env : Env V D) (ip : Option (List (String × V)))
    (m : operationMessage) (h : initMessage env ip = .ok m) : m.Typ = connectionInitMsg := by
  unfold initMessage at h
  split at h
  · cases h; rfl
  · split at h
    · cases h
    · cases h; rfl

/-- C4 (as the code has it): when `WebsocketWithPayload` fails, it has called
neither `srv.Close()` nor `c.Close()`: a listener that was created and a
connection that was dialled are still open when the call returns, and the
`Close` of the failed subscription leaves them open and returns no error. -/
theorem websocket_failure_releases_nothing {V D : Type} (env : Env V D) (p : Client V)
    (query : String) (initPayload : Option (List (String × V)))
    (options : List (RequestOption V)) (w : World) (err : GoError)
    (h : WebsocketWithPayload env p query initPayload options = .returned w (.failed err)) :
    w.srvCloseCalls = 0 ∧ w.connCloseCalls = 0 ∧
    (w.srvStarted = true → w.listenerOpen = true) ∧
    (w.connDialed = true → w.connOpen = true) ∧
    Subscription.Close env (.failed err) w = (w, none) := by
  have hc := websocket_never_closes env p query initPayload options
  rw [h] at hc
  simp only [Outcome.world] at hc
  refine ⟨hc.1, hc.2, ?_, ?_, rfl⟩
  · intro hs; simp [World.listenerOpen, hs, hc.1]
  · intro hs; simp [World.connOpen, hs, hc.2]

/-- A first frame of type `data` instead of `connection_ack`: the call fails and
closes nothing. -/
theorem websocket_failure_releases_nothing_witness :
    WebsocketWithPayload (sampleEnv [frame dataMsg none]) plainClient "q" none []
      = .returned
          { srvStarted := true, srvCloseCalls := 0, connDialed := true, connCloseCalls := 0,
            written := [{ Payload := none, ID := "", Typ := connectionInitMsg }],
            readCalls := 1 }
          (.failed (.errorfFrame "expected ack message, got %#v"
            { Payload := none, ID := "1", Typ := dataMsg })) ∧
    Subscription.Close (sampleEnv [frame dataMsg none])
        (.failed (.errorfFrame "expected ack message, got %#v"
          { Payload := none, ID := "1", Typ := dataMsg }))
        { srvStarted := true, srvCloseCalls := 0, connDialed := true, connCloseCalls := 0,
          written := [{ Payload := none, ID := "", Typ := connectionInitMsg }],
          readCalls := 1 }
      = ({ srvStarted := true, srvCloseCalls := 0, connDialed := true, connCloseCalls := 0,
           written := [{ Payload := none, ID := "", Typ := connectionInitMsg }],
           readCalls := 1 }, none) :=
  ⟨by decide,
    (websocket_failure_releases_nothing (sampleEnv [frame dataMsg none]) plainClient "q" none []
      _ _ (by decide)).2.2.2.2⟩

/-- C4 fails as stated: the first frame is not a `connection_ack`, the call
returns a failed subscription, and the listener and the connection are open. -/
theorem websocket_ack_mismatch_leaves_resources_open :
    (WebsocketWithPayload (sampleEnv [frame dataMsg none]) plainClient "q" none
      []).subscription
      = some (.failed (.errorfFrame "expected ack message, got %#v"
          { Payload := none, ID := "1", Typ := dataMsg })) ∧
    (WebsocketWithPayload (sampleEnv [frame dataMsg none]) plainClient "q" none
      []).world.listenerOpen = true ∧
    (WebsocketWithPayload (sampleEnv [frame dataMsg none]) plainClient "q" none
      []).world.connOpen = true := by
  decide

/-- C5 (as the code has it): on a failed subscription every `Close` is a no-op
that returns no error and releases nothing; on a streaming subscription every
`Close` calls `srv.Close()` and `c.Close()` again, so `n` calls of `Close` make
`n` calls of each, and `Close` returns what that call of `c.Close()` returns. -/
theorem close_calls_every_time {V D : Type} (env : Env V D) (n : Nat) (w : World) :
    (∀ err, Subscription.CloseTimes env (.failed err) n w = (w, none)) ∧
    (Subscription.CloseTimes env .streaming n w).1
      = { w with srvCloseCalls := w.srvCloseCalls + n,
                 connCloseCalls := w.connCloseCalls + n } ∧
    (Subscription.Close env .streaming w).2
      = (env.connClose w.connCloseCalls).map GoError.foreign := by
  refine ⟨?_, ?_, rfl⟩
  · intro err
    induction n with
    | zero => rfl
    | succ k ih => simp [Subscription.CloseTimes, ih, Subscription.Close]
  · induction n with
    | zero => rfl
    | succ k ih =>
      simp only [Subscription.CloseTimes, ih, Subscription.Close]
      simp [Nat.add_assoc]

/-- C5 fails as stated: the first `Close` of a failed subscription leaves the
listener and the connection open, and two calls of `Close` on a streaming
subscription call `c.Close()` and `srv.Close()` twice. -/
theorem close_not_idempotent :
    ((Subscription.Close (sampleEnv [frame dataMsg none])
        (.failed (.errorfFrame "expected ack message, got %#v"
          { Payload := none, ID := "1", Typ := dataMsg }))
        (WebsocketWithPayload (sampleEnv [frame dataMsg none]) plainClient "q" none
          []).world).1.listenerOpen = true) ∧
    ((Subscription.Close (sampleEnv [frame dataMsg none])
        (.failed (.errorfFrame "expected ack message, got %#v"
          { Payload := none, ID := "1", Typ := dataMsg }))
        (WebsocketWithPayload (sampleEnv [frame dataMsg none]) plainClient "q" none
          []).world).1.connOpen = true) ∧
    (Subscription.CloseTimes (sampleEnv [ackFrame, kaFrame]) .streaming 2
        (WebsocketWithPayload (sampleEnv [ackFrame, kaFrame]) plainClient "q" none
          []).world).1.connCloseCalls = 2 ∧
    (Subscription.CloseTimes (sampleEnv [ackFrame, kaFrame]) .streaming 2
        (WebsocketWithPayload (sampleEnv [ackFrame, kaFrame]) plainClient "q" none
          []).world).1.srvCloseCalls = 2 := by
  decide

/-- C6 at the frames `connection_ack`, then `data`: the call fails with the error
`expected ack message, got %#v` of the first frame (the ack), not of the frame
read at the keepalive stage. -/
theorem websocket_ka_mismatch_reports_ack_frame :
    (WebsocketWithPayload (sampleEnv [ackFrame, frame dataMsg (some payloadData)])
      plainClient "q" none []).subscription
      = some (.failed (.errorfFrame "expected ack message, got %#v"
          { Payload := none, ID := "", Typ := connectionAckMsg })) ∧
    (WebsocketWithPayload (sampleEnv [ackFrame, frame dataMsg (some payloadData)])
      plainClient "q" none []).subscription
      ≠ some (.failed (.errorfFrame "expected ack message, got %#v"
          { Payload := some payloadData, ID := "1", Typ := dataMsg })) := by
  decide

/-- C7 (as the code has it): the frames handed to the connection are nothing, or
the `connection_init` frame, or that frame and then the start frame (id `1`,
payload the serialized request). The init frame is written exactly when the
request was built, the dial succeeded and the init payload was encoded; the
start frame exactly when moreover the handshake completes; a streaming
subscription is returned exactly when moreover the start write succeeds; and
`Next` never writes. -/
theorem websocket_written_frames {V D : Type} (env : Env V D) (p : Client V) (query : String)
    (initPayload : Option (List (String × V))) (options : List (RequestOption V)) :
    ((WebsocketWithPayload env p query initPayload options).world.written = [] ∨
      ∃ r initMsg, newRequest env p query options = .ok r ∧
        initMessage env initPayload = .ok initMsg ∧ initMsg.Typ = connectionInitMsg ∧
        ((WebsocketWithPayload env p query initPayload options).world.written = [initMsg] ∨
         (WebsocketWithPayload env p query initPayload options).world.written
            = [initMsg, startFrame r.Body])) ∧
    ((WebsocketWithPayload env p query initPayload options).world.written ≠ [] ↔
      ∃ r initMsg, newRequest env p query options = .ok r ∧
        env.dial r.Path r.Header = none ∧ initMessage env initPayload = .ok initMsg) ∧
    ((WebsocketWithPayload env p query initPayload options).world.written.length = 2 ↔
      ∃ r initMsg, newRequest env p query options = .ok r ∧
        env.dial r.Path r.Header = none ∧ initMessage env initPayload = .ok initMsg ∧
        handshakeCompletes env initMsg) ∧
    ((WebsocketWithPayload env p query initPayload options).subscription = some .streaming ↔
      ∃ r initMsg, newRequest env p query options = .ok r ∧
        env.dial r.Path r.Header = none ∧ initMessage env initPayload = .ok initMsg ∧
        handshakeCompletes env initMsg ∧ env.writeJSON 1 (startFrame r.Body) = none) ∧
    (∀ (s : Subscription) (response : D) (w : World),
      (s.Next env response w).1.written = w.written) := by
  refine ⟨?_, ?_, ?_, ?_, next_never_writes env⟩
  all_goals
    cases hr : newRequest env p query options with
    | panicked t =>
      simp [WebsocketWithPayload, hr, Outcome.world, Outcome.subscription, World.fresh]
    | err e =>
      simp [WebsocketWithPayload, hr, Outcome.world, Outcome.subscription, World.fresh,
        errorSubscription]
    | ok r =>
      cases hd : env.dial r.Path r.Header with
      | some e =>
        simp [WebsocketWithPayload, hr, hd, Outcome.world, Outcome.subscription, World.fresh,
          errorSubscription]
      | none =>
        cases hi : initMessage env initPayload with
        | error e =>
          simp [WebsocketWithPayload, hr, hd, hi, Outcome.world, Outcome.subscription,
            World.fresh, errorSubscription]
        | ok initMsg =>
          have hty := initMessage_typ env initPayload initMsg hi
          cases hw0 : env.writeJSON 0 initMsg with
          | some e =>
            simp [WebsocketWithPayload, hr, hd, hi, hw0, hty, handshakeCompletes,
              Outcome.world, Outcome.subscription, World.fresh, errorSubscription,
              World.afterWrite, World.afterRead]
          | none =>
            cases hr0 : env.readJSON 0 with
            | error e =>
              simp [WebsocketWithPayload, hr, hd, hi, hw0, hr0, hty, handshakeCompletes,
                Outcome.world, Outcome.subscription, World.fresh, errorSubscription,
                World.afterWrite, World.afterRead]
            | ok ack =>
              by_cases hack : ack.Typ = connectionAckMsg
              · cases hr1 : env.readJSON 1 with
                | error e =>
                  simp [WebsocketWithPayload, hr, hd, hi, hw0, hr0, hr1, hack, hty,
                    handshakeCompletes, Outcome.world, Outcome.subscription, World.fresh,
                    errorSubscription, World.afterWrite, World.afterRead]
                | ok ka =>
                  by_cases hka : ka.Typ = connectionKaMsg
                  · cases hw1 : env.writeJSON 1 (startFrame r.Body) with
                    | some e =>
                      simp [WebsocketWithPayload, hr, hd, hi, hw0, hr0, hr1, hack, hka, hw1,
                        hty, handshakeCompletes, Outcome.world, Outcome.subscription,
                        World.fresh, errorSubscription, World.afterWrite, World.afterRead]
                    | none =>
                      simp [WebsocketWithPayload, hr, hd, hi, hw0, hr0, hr1, hack, hka, hw1,
                        hty, handshakeCompletes, Outcome.world, Outcome.subscription,
                        World.fresh, errorSubscription, World.afterWrite, World.afterRead]
                  · simp [WebsocketWithPayload, hr, hd, hi, hw0, hr0, hr1, hack, hka, hty,
                      handshakeCompletes, Outcome.world, Outcome.subscription, World.fresh,
                      errorSubscription, World.afterWrite, World.afterRead]
              · simp [WebsocketWithPayload, hr, hd, hi, hw0, hr0, hack, hty,
                  handshakeCompletes, Outcome.world, Outcome.subscription, World.fresh,
                  errorSubscription, World.afterWrite, World.afterRead]

/-- C7 fails as stated: the connection is dialled, the init payload cannot be
encoded, and the run ends with no frame written at all, so not with one
`connection_init` frame. -/
theorem websocket_init_payload_error_writes_nothing :
    WebsocketWithPayload unencodableInitEnv plainClient "q" (some [("x", [])]) []
      = .returned
          { srvStarted := true, srvCloseCalls := 0, connDialed := true, connCloseCalls := 0,
            written := [], readCalls := 0 }
          (.failed (.errorString "parse payload: json: unsupported value: NaN")) := by
  decide

/-! ## Terminal states -/

/-- C9 (as the code has it): on a failed subscription `Next` returns the
establishment error, reads nothing and leaves the destination as it was; on a
streaming subscription after `Close`, `Next` still reads from the connection,
and when that read fails it returns the error of the read and leaves the
destination as it was. -/
theorem next_in_terminal_state {V D : Type} (env : Env V D) :
    (∀ (err : GoError) (response : D) (w : World),
      Subscription.Next env (.failed err) response w = (w, response, some err)) ∧
    (∀ (w : World) (response : D) (e : String),
      env.readJSON (Subscription.Close env .streaming w).1.readCalls = .error e →
      Subscription.Next env .streaming response (Subscription.Close env .streaming w).1
        = ((Subscription.Close env .streaming w).1.afterRead, response,
            some (.foreign e))) := by
  refine ⟨fun _ _ _ => rfl, ?_⟩
  intro w response e h
  simp only [Subscription.Next, h]

/-- After the handshake and `Close`, a server that sends nothing more makes
`Next` fail with the error of the read. -/
theorem next_in_terminal_state_witness :
    (sampleEnv [ackFrame, kaFrame]).readJSON
      (Subscription.Close (sampleEnv [ackFrame, kaFrame]) .streaming
        (WebsocketWithPayload (sampleEnv [ackFrame, kaFrame]) plainClient "q" none
          []).world).1.readCalls = .error "EOF" ∧
    Subscription.Next (sampleEnv [ackFrame, kaFrame]) .streaming [("x", "0")]
      (Subscription.Close (sampleEnv [ackFrame, kaFrame]) .streaming
        (WebsocketWithPayload (sampleEnv [ackFrame, kaFrame]) plainClient "q" none
          []).world).1
      = ((Subscription.Close (sampleEnv [ackFrame, kaFrame]) .streaming
          (WebsocketWithPayload (sampleEnv [ackFrame, kaFrame]) plainClient "q" none
            []).world).1.afterRead, [("x", "0")], some (.foreign "EOF")) :=
  ⟨rfl,
    (next_in_terminal_state (sampleEnv [ackFrame, kaFrame])).2 _ [("x", "0")] "EOF" rfl⟩

/-- C9 fails as stated: `Next` keeps no closed state, so when the connection still
delivers a frame after `Close`, `Next` decodes it and returns no error. -/
theorem next_after_close_still_decodes :
    (WebsocketWithPayload oneDataEnv plainClient "q" none []).subscription
      = some .streaming ∧
    (Subscription.Next oneDataEnv .streaming [("x", "0")]
      (Subscription.Close oneDataEnv .streaming
        (WebsocketWithPayload oneDataEnv plainClient "q" none []).world).1).2
      = ([("x", "1")], none) := by
  decide

/-! ## The request of a subscription -/

/-- The body of the request of `newRequest` is the serialization of the base
request after the options of the client and then the options of the call. -/
theorem newRequest_ok_body {V D : Type} (env : Env V D) (p : Client V) (query : String)
    (options : List (RequestOption V)) (r : HTTPRequest)
    (h : newRequest env p query options = .ok r) :
    ∃ body, env.marshalRequest (applyOptions p options (baseRequest query)) = .ok body ∧
      r.Body = some body := by
  unfold newRequest at h
  dsimp only at h
  split at h
  · split at h
    · cases h
    · rename_i body hbody
      cases h
      exact ⟨body, hbody, rfl⟩
  · cases h

/-- The options handed to `WebsocketOnce` have no effect. -/
theorem websocketOnce_options_unused {V D : Type} (env : Env V D) (p : Client V)
    (query : String) (resp : D) (options : List (RequestOption V)) :
    WebsocketOnce env p query resp options = WebsocketOnce env p query resp [] := rfl

/-- C10 at a call option that adds the variable `a`: `WebsocketOnce` sends the start frame
of the request without the variable, whereas `Websocket` with the same option
sends the request with it. -/
theorem websocketOnce_drops_call_options :
    (WebsocketOnce oneDataEnv plainClient "q" [("x", "0")] [addVariable "a" []]).world.written
      = [{ Payload := none, ID := "", Typ := connectionInitMsg }, startFrame (some "q|")] ∧
    (Websocket oneDataEnv plainClient "q" [addVariable "a" []]).world.written
      = [{ Payload := none, ID := "", Typ := connectionInitMsg }, startFrame (some "q|a")] := by
  decide

end client
